import Mathlib

/-!
# Store_model: shallow embedding and verification

A shallow embedding of the data-access core of the Store_model repository
(`store.py`), together with proofs settling the specification claims.

The persistent store is modelled as an explicit state value holding the four
tables of the schema (`Products`, `Storage`, `StoreSales`, `OnlineSales`).
Each Python method that reads or writes the database becomes a Lean function
from states to states (paired with an outcome value when the method can raise
or silently refuse). Python integers are `Int`; prices are modelled as `Int`
since no claim depends on fractional values; the wall-clock timestamp that
`record_sale` stores is passed in as an explicit `now` parameter.
-/

/-- A row of the `Products` table:
`Products(ProductID PK, ProductName, Price, Availability boolean default true)`.
`availability` models the 0/1 integer flag. -/
structure ProductRow where
  productID : Int
  productName : String
  price : Int
  availability : Bool
deriving DecidableEq, Repr

/-- A row of the `Storage` table: `Storage(ProductID PK/FK, Quantity)`. -/
structure StorageRow where
  productID : Int
  quantity : Int
deriving DecidableEq, Repr

/-- A row of the `StoreSales` / `OnlineSales` tables
(`id PK, ProductID FK, Quantity, SaleDate`); the auto-assigned `id` is the
position in the list, and `saleDate` holds the `datetime.now()` value that
`record_sale` inserted, modelled as an abstract integer timestamp. -/
structure SaleRow where
  productID : Int
  quantity : Int
  saleDate : Int
deriving DecidableEq, Repr

/-- The committed database state: the four tables plus the auto-increment
counter backing `cursor.lastrowid` for `Products`. -/
structure StoreState where
  products : List ProductRow
  nextProductID : Int
  storage : List StorageRow
  storeSales : List SaleRow
  onlineSales : List SaleRow
deriving DecidableEq, Repr

/-- The freshly initialised database: empty tables, first ProductID is 1. -/
def initialState : StoreState :=
  { products := [], nextProductID := 1, storage := [], storeSales := [],
    onlineSales := [] }

/-- `StoreManager.check_product_exists` / `OnlineShopManager.check_product_exists`:
`SELECT 1 FROM Products WHERE ProductID = ?` followed by `fetchone() is not None`. -/
def check_product_exists (s : StoreState) (pid : Int) : Bool :=
  (s.products.find? (fun p => p.productID == pid)).isSome

/-- `StorageManager.is_product_active`:
`SELECT Availability FROM Products WHERE ProductID = ?`, then
`row and row[0] == 1` — false both when the product is absent and when its
availability flag is 0. -/
def is_product_active (s : StoreState) (pid : Int) : Bool :=
  match s.products.find? (fun p => p.productID == pid) with
  | some p => p.availability
  | none => false

/-- Outcome of `StorageManager.add_product` (replenishment). -/
inductive ReplenishResult where
  | ok
  | fkViolation
deriving DecidableEq, Repr

/-- `StorageManager.add_product`: checks `SELECT 1 FROM Storage WHERE ProductID = ?`;
if a row exists, `UPDATE Storage SET Quantity = Quantity + ?`, otherwise
`INSERT INTO Storage (ProductID, Quantity) VALUES (?, ?)`. No quantity
validation is performed here.

Modelled from the spec: the schema file `store_schema.sql` is not in the
sources; per the spec's schema, `Storage.ProductID` is a foreign key to
`Products`, and the connection runs `PRAGMA foreign_keys = ON`, so the
`INSERT` branch fails (sqlite `IntegrityError`, leaving the state unchanged)
when the product has no catalog row. The `UPDATE` branch touches no key and
cannot violate the constraint. -/
def StorageManager.add_product (s : StoreState) (pid qty : Int) :
    ReplenishResult × StoreState :=
  match s.storage.find? (fun e => e.productID == pid) with
  | some _ =>
      (.ok, { s with storage := s.storage.map (fun e =>
        if e.productID == pid then { e with quantity := e.quantity + qty } else e) })
  | none =>
      if check_product_exists s pid then
        (.ok, { s with storage := s.storage ++ [⟨pid, qty⟩] })
      else
        (.fkViolation, s)

/-- `StorageManager.add_new_product`:
`INSERT INTO Products (ProductName, Price, Availability) VALUES (?, ?, 1)`,
commit, and return `cursor.lastrowid`. No validation of name or price. -/
def StorageManager.add_new_product (s : StoreState) (name : String) (price : Int) :
    Int × StoreState :=
  (s.nextProductID,
   { s with
     products := s.products ++ [⟨s.nextProductID, name, price, true⟩],
     nextProductID := s.nextProductID + 1 })

/-- `StorageManager.delete_product`:
`UPDATE Products SET Availability = 0 WHERE ProductID = ?` (a no-op when the
product is absent). -/
def StorageManager.delete_product (s : StoreState) (pid : Int) : StoreState :=
  { s with products := s.products.map (fun p =>
      if p.productID == pid then { p with availability := false } else p) }

/-- `StorageManager.activate_product`:
`UPDATE Products SET Availability = 1 WHERE ProductID = ?`. -/
def StorageManager.activate_product (s : StoreState) (pid : Int) : StoreState :=
  { s with products := s.products.map (fun p =>
      if p.productID == pid then { p with availability := true } else p) }

/-- How a `record_sale` call terminates. `rejectedSilently` is a plain
`return` after printing an error message (no exception); the `raised…`
constructors are the distinct `ValueError`s the code can raise. -/
inductive SaleResult where
  | recorded
  | rejectedSilently
  | raisedNotFound
  | raisedInactive
  | raisedNonPositiveQty
deriving DecidableEq, Repr

/-- `StoreManager.record_sale`, transcribed branch by branch from the source:
the *first* `if not is_product_active` prints and returns; the *second*,
identical `if not is_product_active` would `raise ValueError`; `quantity <= 0`
prints and returns; otherwise the sale row is inserted into `StoreSales` with
the current timestamp and committed. -/
def StoreManager.record_sale (now : Int) (s : StoreState) (pid qty : Int) :
    SaleResult × StoreState :=
  if ¬ is_product_active s pid then (.rejectedSilently, s)
  else if ¬ is_product_active s pid then (.raisedInactive, s)
  else if qty ≤ 0 then (.rejectedSilently, s)
  else (.recorded, { s with storeSales := s.storeSales ++ [⟨pid, qty, now⟩] })

/-- `OnlineShopManager.record_sale`: raises `ValueError` when the product does
not exist, when it is inactive, or when `quantity <= 0`; otherwise inserts the
sale row into `OnlineSales` with the current timestamp and commits. -/
def OnlineShopManager.record_sale (now : Int) (s : StoreState) (pid qty : Int) :
    SaleResult × StoreState :=
  if ¬ check_product_exists s pid then (.raisedNotFound, s)
  else if ¬ is_product_active s pid then (.raisedInactive, s)
  else if qty ≤ 0 then (.raisedNonPositiveQty, s)
  else (.recorded, { s with onlineSales := s.onlineSales ++ [⟨pid, qty, now⟩] })

/-- One row of `ReportManager.get_sales_report`'s SELECT: ProductID,
ProductName, Price, COALESCE'd storage quantity, the two per-channel
COALESCE'd sale sums, their total, and Availability. -/
structure ReportRow where
  productID : Int
  productName : String
  price : Int
  storageQuantity : Int
  storeSalesQuantity : Int
  onlineSalesQuantity : Int
  totalSalesQuantity : Int
  availability : Bool
deriving DecidableEq, Repr

/-- `COALESCE(s.Quantity, 0)` from the report's `LEFT JOIN Storage`:
the joined quantity when a storage row exists (ProductID is the `Storage`
primary key, so at most one row matches), 0 otherwise. -/
def stockFor (s : StoreState) (pid : Int) : Int :=
  match s.storage.find? (fun e => e.productID == pid) with
  | some e => e.quantity
  | none => 0

/-- `COALESCE((SELECT SUM(ss.Quantity) FROM StoreSales ss WHERE ss.ProductID = p.ProductID), 0)`. -/
def storeSalesSum (s : StoreState) (pid : Int) : Int :=
  ((s.storeSales.filter (fun r => r.productID == pid)).map (fun r => r.quantity)).sum

/-- `COALESCE((SELECT SUM(os.Quantity) FROM OnlineSales os WHERE os.ProductID = p.ProductID), 0)`. -/
def onlineSalesSum (s : StoreState) (pid : Int) : Int :=
  ((s.onlineSales.filter (fun r => r.productID == pid)).map (fun r => r.quantity)).sum

/-- The report row produced for catalog row `p`. -/
def reportRowFor (s : StoreState) (p : ProductRow) : ReportRow :=
  { productID := p.productID
    productName := p.productName
    price := p.price
    storageQuantity := stockFor s p.productID
    storeSalesQuantity := storeSalesSum s p.productID
    onlineSalesQuantity := onlineSalesSum s p.productID
    totalSalesQuantity := storeSalesSum s p.productID + onlineSalesSum s p.productID
    availability := p.availability }

/-- The `ORDER BY p.ProductID` ordering on catalog rows. -/
def rowLE (a b : ProductRow) : Prop := a.productID ≤ b.productID

instance : DecidableRel rowLE := fun a b => Int.decLe a.productID b.productID

instance : IsTotal ProductRow rowLE := ⟨fun a b => Int.le_total a.productID b.productID⟩

instance : IsTrans ProductRow rowLE := ⟨fun _ _ _ h h' => le_trans h h'⟩

/-- `ReportManager.get_sales_report`: one row per `Products` row (the LEFT
JOIN on the `Storage` primary key never duplicates or drops a product),
ordered by ProductID ascending; `ORDER BY` is a stable sort. -/
def ReportManager.get_sales_report (s : StoreState) : List ReportRow :=
  (s.products.insertionSort rowLE).map (reportRowFor s)

/-- The mutating operations of the `StoreApp` façade, each carrying its
caller-supplied arguments (`now` is the wall-clock timestamp a sale would
store). -/
inductive Op where
  | addProduct (name : String) (price : Int)
  | replenishStock (pid qty : Int)
  | sellInStore (pid qty now : Int)
  | sellOnline (pid qty now : Int)
  | deactivateProduct (pid : Int)
  | activateProduct (pid : Int)
deriving DecidableEq, Repr

/-- The state transition of one public operation (a raising or silently
refused call leaves the committed state as it was). -/
def applyOp (s : StoreState) : Op → StoreState
  | .addProduct name price => (StorageManager.add_new_product s name price).2
  | .replenishStock pid qty => (StorageManager.add_product s pid qty).2
  | .sellInStore pid qty now => (StoreManager.record_sale now s pid qty).2
  | .sellOnline pid qty now => (OnlineShopManager.record_sale now s pid qty).2
  | .deactivateProduct pid => StorageManager.delete_product s pid
  | .activateProduct pid => StorageManager.activate_product s pid

/-- Run a sequence of public operations from a given state. -/
def runFrom (s : StoreState) (ops : List Op) : StoreState :=
  ops.foldl applyOp s

/-- Run a sequence of public operations from the freshly initialised store. -/
def runOps (ops : List Op) : StoreState :=
  runFrom initialState ops

/-! ## Shared helper lemmas and sample states -/

/-- A state with product 1 created ("Widget", price 999) and 10 units in stock. -/
def sampleActive : StoreState :=
  runOps [.addProduct "Widget" 999, .replenishStock 1 10]

/-- A state with product 1 created and then deactivated. -/
def sampleInactive : StoreState :=
  runOps [.addProduct "Widget" 999, .deactivateProduct 1]

/-- A state with two products, stock for the first, and one sale on each
channel (the spec's end-to-end scenario plus a second, never-sold product). -/
def sampleFull : StoreState :=
  runOps [.addProduct "Widget" 999, .replenishStock 1 10,
    .sellInStore 1 3 0, .sellOnline 1 2 1, .addProduct "Gadget" 5]

/-- All stock quantities recorded in `Storage` are non-negative. -/
def storageNonneg (s : StoreState) : Prop :=
  ∀ e ∈ s.storage, 0 ≤ e.quantity

/-- The operation uses a positive quantity whenever it is a replenishment
(the precondition the interactive front-end enforces before calling the
core's `add_product`). -/
def replenishPositive : Op → Prop
  | .replenishStock _ qty => 0 < qty
  | _ => True

/-- Every catalog row's ID is below the auto-increment counter — true of
every state the application can reach, and exactly what makes a fresh ID
"not previously issued". -/
def idsBelowNext (s : StoreState) : Prop :=
  ∀ p ∈ s.products, p.productID < s.nextProductID

/-- An active product exists: `is_product_active` only answers `true` when the
catalog lookup found a row. -/
theorem active_imp_exists (s : StoreState) (pid : Int)
    (h : is_product_active s pid = true) : check_product_exists s pid = true := by
  unfold is_product_active at h
  unfold check_product_exists
  cases hf : s.products.find? (fun p => p.productID == pid) with
  | none => rw [hf] at h; cases h
  | some p => simp

/-- Contrapositive form: an absent product is never active. -/
theorem not_exists_imp_not_active (s : StoreState) (pid : Int)
    (h : check_product_exists s pid = false) : is_product_active s pid = false := by
  cases hh : is_product_active s pid
  · rfl
  · rw [active_imp_exists s pid hh] at h; cases h

/-! ## Claims -/

/-- C1: the spec says `sellInStore(999, 1)` on a catalog that never contained
product 999 fails with `NotFoundError` and writes no row. Evaluating the code
at that input shows the call instead returns normally (the store channel's
only not-found/inactive handling is a printed message followed by a plain
`return`); no row is written, but no error of any kind is signalled. -/
theorem C1_store_sale_unknown_product_is_silent :
    StoreManager.record_sale 0 initialState 999 1 =
      (SaleResult.rejectedSilently, initialState) ∧
    (StoreManager.record_sale 0 initialState 999 1).1 ≠ SaleResult.raisedNotFound := by
  decide

/-- C10: the store channel's `record_sale` never raises: its raising
inactive-product branch is dead code (an identical guard already returned),
so every call either records the sale or returns silently; in particular, for
an inactive or absent product, or a non-positive quantity, it returns
normally with the state unchanged. -/
theorem C10_store_sale_never_raises (now : Int) (s : StoreState) (pid qty : Int) :
    ((StoreManager.record_sale now s pid qty).1 = SaleResult.recorded ∨
     (StoreManager.record_sale now s pid qty).1 = SaleResult.rejectedSilently) ∧
    ((is_product_active s pid = false ∨ qty ≤ 0) →
      StoreManager.record_sale now s pid qty = (SaleResult.rejectedSilently, s)) := by
  cases ha : is_product_active s pid with
  | false => simp [StoreManager.record_sale, ha]
  | true =>
    by_cases hq : qty ≤ 0 <;>
      simp [StoreManager.record_sale, ha, hq]

/-- C10 witness: concrete instance at an inactive product. -/
theorem C10_store_sale_never_raises_witness :
    (is_product_active sampleInactive 1 = false ∨ (1 : Int) ≤ 0) ∧
    StoreManager.record_sale 0 sampleInactive 1 1 =
      (SaleResult.rejectedSilently, sampleInactive) :=
  ⟨Or.inl (by decide),
   (C10_store_sale_never_raises 0 sampleInactive 1 1).2 (Or.inl (by decide))⟩

/-- C6: an input that fails `record_sale`'s validation (non-positive
quantity, unknown product, or inactive product) leaves the whole committed
state unchanged on both channels: no ledger row, no other mutation. -/
theorem C6_validation_failure_no_mutation (now : Int) (s : StoreState) (pid qty : Int)
    (h : qty ≤ 0 ∨ check_product_exists s pid = false ∨
         is_product_active s pid = false) :
    (StoreManager.record_sale now s pid qty).2 = s ∧
    (OnlineShopManager.record_sale now s pid qty).2 = s := by
  rcases h with hq | he | ha
  · cases ha : is_product_active s pid with
    | false =>
      cases hex : check_product_exists s pid <;>
        simp [StoreManager.record_sale, OnlineShopManager.record_sale, ha, hex]
    | true =>
      have he := active_imp_exists s pid ha
      simp [StoreManager.record_sale, OnlineShopManager.record_sale, ha, he, hq]
  · have ha := not_exists_imp_not_active s pid he
    simp [StoreManager.record_sale, OnlineShopManager.record_sale, ha, he]
  · cases hex : check_product_exists s pid <;>
      simp [StoreManager.record_sale, OnlineShopManager.record_sale, ha, hex]

/-- C6 witness: concrete instance at quantity 0 against an active product. -/
theorem C6_validation_failure_no_mutation_witness :
    ((0 : Int) ≤ 0 ∨ check_product_exists sampleActive 1 = false ∨
      is_product_active sampleActive 1 = false) ∧
    (StoreManager.record_sale 0 sampleActive 1 0).2 = sampleActive ∧
    (OnlineShopManager.record_sale 0 sampleActive 1 0).2 = sampleActive :=
  ⟨Or.inl (by decide),
   (C6_validation_failure_no_mutation 0 sampleActive 1 0 (Or.inl (by decide))).1,
   (C6_validation_failure_no_mutation 0 sampleActive 1 0 (Or.inl (by decide))).2⟩

/-- C5 counterexample: selling an inactive product is rejected with a raised
`ValueError` on the online channel but with a silent normal return on the
store channel, so the two channels do not signal the same typed failure. -/
theorem C5_channels_differ_counterexample :
    (StoreManager.record_sale 0 sampleInactive 1 1).1 = SaleResult.rejectedSilently ∧
    (OnlineShopManager.record_sale 0 sampleInactive 1 1).1 = SaleResult.raisedInactive ∧
    SaleResult.rejectedSilently ≠ SaleResult.raisedInactive := by
  decide

/-- C5 (amended): the two channels accept exactly the same inputs — the
product's first catalog row is active and the quantity is positive — and
in exactly those cases each appends one record to its own ledger; but the
failure semantics differ: on every rejected input the store channel returns
silently without raising, while the online channel raises and never returns
silently. -/
theorem C5_channels_same_acceptance (now : Int) (s : StoreState) (pid qty : Int) :
    ((StoreManager.record_sale now s pid qty).1 = SaleResult.recorded ↔
      (OnlineShopManager.record_sale now s pid qty).1 = SaleResult.recorded) ∧
    ((StoreManager.record_sale now s pid qty).1 = SaleResult.recorded ↔
      (is_product_active s pid = true ∧ 0 < qty)) ∧
    ((StoreManager.record_sale now s pid qty).1 = SaleResult.recorded →
      (StoreManager.record_sale now s pid qty).2.storeSales
          = s.storeSales ++ [⟨pid, qty, now⟩] ∧
      (OnlineShopManager.record_sale now s pid qty).2.onlineSales
          = s.onlineSales ++ [⟨pid, qty, now⟩]) ∧
    ((StoreManager.record_sale now s pid qty).1 ≠ SaleResult.recorded →
      (StoreManager.record_sale now s pid qty).1 = SaleResult.rejectedSilently ∧
      (OnlineShopManager.record_sale now s pid qty).1 ≠ SaleResult.recorded ∧
      (OnlineShopManager.record_sale now s pid qty).1 ≠ SaleResult.rejectedSilently) := by
  cases ha : is_product_active s pid with
  | false =>
    cases hex : check_product_exists s pid with
    | false => simp [StoreManager.record_sale, OnlineShopManager.record_sale, ha, hex]
    | true => simp [StoreManager.record_sale, OnlineShopManager.record_sale, ha, hex]
  | true =>
    have hex := active_imp_exists s pid ha
    by_cases hq : qty ≤ 0 <;>
      simp [StoreManager.record_sale, OnlineShopManager.record_sale, ha, hex, hq,
        Int.not_le] <;> omega

/-- C5 witness: concrete instance — a valid sale is accepted on both channels
and each ledger gains exactly its own row. -/
theorem C5_channels_same_acceptance_witness :
    (StoreManager.record_sale 5 sampleActive 1 2).1 = SaleResult.recorded ∧
    (StoreManager.record_sale 5 sampleActive 1 2).2.storeSales
        = sampleActive.storeSales ++ [⟨1, 2, 5⟩] ∧
    (OnlineShopManager.record_sale 5 sampleActive 1 2).2.onlineSales
        = sampleActive.onlineSales ++ [⟨1, 2, 5⟩] :=
  ⟨by decide,
   ((C5_channels_same_acceptance 5 sampleActive 1 2).2.2.1 (by decide)).1,
   ((C5_channels_same_acceptance 5 sampleActive 1 2).2.2.1 (by decide)).2⟩

/-- C9: a successful sale on either channel changes nothing but its own
ledger: the `Storage` and `Products` tables and the other channel's ledger
are untouched, and the channel's ledger gains exactly the one new row. -/
theorem C9_successful_sale_frame (now : Int) (s : StoreState) (pid qty : Int) :
    ((StoreManager.record_sale now s pid qty).1 = SaleResult.recorded →
      (StoreManager.record_sale now s pid qty).2.storage = s.storage ∧
      (StoreManager.record_sale now s pid qty).2.products = s.products ∧
      (StoreManager.record_sale now s pid qty).2.nextProductID = s.nextProductID ∧
      (StoreManager.record_sale now s pid qty).2.onlineSales = s.onlineSales ∧
      (StoreManager.record_sale now s pid qty).2.storeSales
          = s.storeSales ++ [⟨pid, qty, now⟩]) ∧
    ((OnlineShopManager.record_sale now s pid qty).1 = SaleResult.recorded →
      (OnlineShopManager.record_sale now s pid qty).2.storage = s.storage ∧
      (OnlineShopManager.record_sale now s pid qty).2.products = s.products ∧
      (OnlineShopManager.record_sale now s pid qty).2.nextProductID = s.nextProductID ∧
      (OnlineShopManager.record_sale now s pid qty).2.storeSales = s.storeSales ∧
      (OnlineShopManager.record_sale now s pid qty).2.onlineSales
          = s.onlineSales ++ [⟨pid, qty, now⟩]) := by
  cases ha : is_product_active s pid with
  | false =>
    cases hex : check_product_exists s pid <;>
      simp [StoreManager.record_sale, OnlineShopManager.record_sale, ha, hex]
  | true =>
    have hex := active_imp_exists s pid ha
    by_cases hq : qty ≤ 0 <;>
      simp [StoreManager.record_sale, OnlineShopManager.record_sale, ha, hex, hq]

/-- C9 witness: concrete instance of the frame condition for both channels. -/
theorem C9_successful_sale_frame_witness :
    (StoreManager.record_sale 7 sampleActive 1 3).1 = SaleResult.recorded ∧
    (StoreManager.record_sale 7 sampleActive 1 3).2.storage = sampleActive.storage ∧
    (OnlineShopManager.record_sale 8 sampleActive 1 2).2.onlineSales
        = sampleActive.onlineSales ++ [⟨1, 2, 8⟩] :=
  ⟨by decide,
   ((C9_successful_sale_frame 7 sampleActive 1 3).1 (by decide)).1,
   ((C9_successful_sale_frame 8 sampleActive 1 2).2 (by decide)).2.2.2.2⟩

/-- The `UPDATE Storage SET Quantity = Quantity + ?` map does not move the
matching row: looking it up afterwards finds the updated image of the row
found before. -/
theorem storage_find?_map_update (l : List StorageRow) (pid qty : Int) :
    (l.map (fun e =>
        if e.productID == pid then { e with quantity := e.quantity + qty } else e)).find?
        (fun e => e.productID == pid)
      = (l.find? (fun e => e.productID == pid)).map (fun e =>
          if e.productID == pid then { e with quantity := e.quantity + qty } else e) := by
  rw [List.find?_map]
  have hp : ((fun e : StorageRow => e.productID == pid) ∘ fun e =>
      if e.productID == pid then { e with quantity := e.quantity + qty } else e)
      = fun e => e.productID == pid := by
    funext e
    by_cases h : e.productID == pid <;> simp [Function.comp, h]
  rw [hp]

/-- Rows not matching the `WHERE` clause are untouched by the update map. -/
theorem storage_map_update_of_find?_none (l : List StorageRow) (pid qty : Int)
    (h : l.find? (fun e => e.productID == pid) = none) :
    l.map (fun e =>
        if e.productID == pid then { e with quantity := e.quantity + qty } else e) = l := by
  have hall := List.find?_eq_none.mp h
  calc l.map (fun e =>
          if e.productID == pid then { e with quantity := e.quantity + qty } else e)
      = l.map (fun e => e) := by
        refine List.map_congr_left (fun e he => ?_)
        have : ¬ (e.productID == pid) = true := hall e he
        simp [this]
    _ = l := List.map_id' l

/-- Replenishing twice reaches the same state as replenishing once with the
sum, in every starting state (existing record: the additive updates compose;
no record but a catalog row: the inserted row carries the sum; no catalog
row: both runs fail the foreign key and change nothing). -/
theorem add_product_twice (s : StoreState) (pid q1 q2 : Int) :
    (StorageManager.add_product (StorageManager.add_product s pid q1).2 pid q2).2
      = (StorageManager.add_product s pid (q1 + q2)).2 := by
  cases hf : s.storage.find? (fun e => e.productID == pid) with
  | some e =>
    have h1 : (StorageManager.add_product s pid q1).2
        = { s with storage := s.storage.map (fun x =>
            if x.productID == pid then { x with quantity := x.quantity + q1 } else x) } := by
      simp [StorageManager.add_product, hf]
    rw [h1]
    have h2 : ((s.storage.map (fun x =>
            if x.productID == pid then { x with quantity := x.quantity + q1 } else x)).find?
          (fun x => x.productID == pid)).isSome = true := by
      rw [storage_find?_map_update, hf]
      rfl
    cases h2' : (s.storage.map (fun x =>
        if x.productID == pid then { x with quantity := x.quantity + q1 } else x)).find?
          (fun x => x.productID == pid) with
    | none => rw [h2'] at h2; cases h2
    | some e' =>
      simp only [StorageManager.add_product, h2', hf]
      rw [List.map_map]
      have : (s.storage.map (fun x =>
          if x.productID == pid then { x with quantity := x.quantity + q1 } else x)).map
            (fun x => if x.productID == pid then { x with quantity := x.quantity + q2 } else x)
          = s.storage.map (fun x =>
            if x.productID == pid then { x with quantity := x.quantity + (q1 + q2) } else x) := by
        rw [List.map_map]
        refine List.map_congr_left (fun x _ => ?_)
        by_cases h : x.productID == pid <;> simp [Function.comp, h, Int.add_assoc]
      rw [List.map_map] at this
      simp only [this]
  | none =>
    cases hex : check_product_exists s pid with
    | true =>
      have h1 : (StorageManager.add_product s pid q1).2
          = { s with storage := s.storage ++ [⟨pid, q1⟩] } := by
        simp [StorageManager.add_product, hf, hex]
      rw [h1]
      have hfind : ((s.storage ++ [(⟨pid, q1⟩ : StorageRow)]).find?
          (fun e => e.productID == pid)) = some ⟨pid, q1⟩ := by
        rw [List.find?_append, hf]
        simp [List.find?]
      simp only [StorageManager.add_product, hfind, hf, hex, if_true]
      rw [List.map_append, storage_map_update_of_find?_none s.storage pid q2 hf]
      simp
    | false =>
      have h1 : (StorageManager.add_product s pid q1).2 = s := by
        simp [StorageManager.add_product, hf, hex]
      rw [h1]
      simp [StorageManager.add_product, hf, hex]

/-- C8: replenishing a product with `q1` and then `q2` leaves that product's
stock exactly as one replenishment with `q1 + q2` would, from any starting
state — including one with no stock record yet. -/
theorem C8_replenish_accumulative (s : StoreState) (pid q1 q2 : Int)
    (h1 : 0 < q1) (h2 : 0 < q2) :
    stockFor (StorageManager.add_product
        (StorageManager.add_product s pid q1).2 pid q2).2 pid
      = stockFor (StorageManager.add_product s pid (q1 + q2)).2 pid := by
  rw [add_product_twice]

/-- C8 witness: 3 units then 4 units equals 7 units at once, starting with no
stock record. -/
theorem C8_replenish_accumulative_witness :
    (0 : Int) < 3 ∧ (0 : Int) < 4 ∧
    stockFor (StorageManager.add_product
        (StorageManager.add_product (runOps [.addProduct "W" 1]) 1 3).2 1 4).2 1
      = stockFor (StorageManager.add_product (runOps [.addProduct "W" 1]) 1 (3 + 4)).2 1 :=
  ⟨by decide, by decide,
   C8_replenish_accumulative (runOps [.addProduct "W" 1]) 1 3 4 (by decide) (by decide)⟩

/-- C3 counterexample: replenishing an existing product with quantity `-5`
does not fail at all — the call completes and the storage table now holds a
row with quantity `-5`, so the state is not left unchanged and no
`ValidationError` is signalled. -/
theorem C3_negative_replenish_counterexample :
    (StorageManager.add_product (runOps [.addProduct "W" 1]) 1 (-5)).1
        = ReplenishResult.ok ∧
    (StorageManager.add_product (runOps [.addProduct "W" 1]) 1 (-5)).2.storage
        = [⟨1, -5⟩] ∧
    (runOps [.addProduct "W" 1]).storage = [] := by
  decide

/-- C3 (amended): `replenishStock` performs no quantity validation anywhere
in the core: for a product with a catalog row, every quantity — non-positive
ones included — is accepted and added to the product's stock (creating the
record when absent); the `quantity > 0` guard exists only in the interactive
front-end, which refuses to call the operation. -/
theorem C3_replenish_no_validation (s : StoreState) (pid qty : Int)
    (hex : check_product_exists s pid = true) (hq : qty ≤ 0) :
    (StorageManager.add_product s pid qty).1 = ReplenishResult.ok ∧
    stockFor (StorageManager.add_product s pid qty).2 pid = stockFor s pid + qty := by
  cases hf : s.storage.find? (fun e => e.productID == pid) with
  | none =>
    have hfind : ((s.storage ++ [(⟨pid, qty⟩ : StorageRow)]).find?
        (fun e => e.productID == pid)) = some ⟨pid, qty⟩ := by
      rw [List.find?_append, hf]
      simp [List.find?]
    simp only [StorageManager.add_product, hf, hex, if_true]
    refine ⟨trivial, ?_⟩
    simp only [stockFor, hfind, hf]
    exact (Int.zero_add qty).symm
  | some e =>
    have hpe : e.productID = pid := by
      have := List.find?_some hf
      simpa using this
    have hfind : ((s.storage.map (fun x =>
          if x.productID == pid then { x with quantity := x.quantity + qty } else x)).find?
        (fun x => x.productID == pid))
        = some { e with quantity := e.quantity + qty } := by
      rw [storage_find?_map_update, hf]
      simp [hpe]
    simp only [StorageManager.add_product, hf]
    refine ⟨trivial, ?_⟩
    simp only [stockFor, hfind, hf]

/-- C3 witness: concrete instance — replenishing product 1 by 0 leaves its
stock numerically unchanged yet completes without any failure. -/
theorem C3_replenish_no_validation_witness :
    check_product_exists sampleActive 1 = true ∧ (0 : Int) ≤ 0 ∧
    (StorageManager.add_product sampleActive 1 0).1 = ReplenishResult.ok ∧
    stockFor (StorageManager.add_product sampleActive 1 0).2 1
      = stockFor sampleActive 1 + 0 :=
  ⟨by decide, by decide,
   (C3_replenish_no_validation sampleActive 1 0 (by decide) (by decide)).1,
   (C3_replenish_no_validation sampleActive 1 0 (by decide) (by decide)).2⟩

/-- Each public operation preserves non-negative stock, provided a
replenishment carries a positive quantity: sales and lifecycle flips never
touch `Storage`, and a positive replenishment only adds to a non-negative
quantity or inserts a positive one. -/
theorem applyOp_storageNonneg (s : StoreState) (op : Op)
    (hs : storageNonneg s) (hop : replenishPositive op) :
    storageNonneg (applyOp s op) := by
  cases op with
  | addProduct name price => exact hs
  | deactivateProduct pid => exact hs
  | activateProduct pid => exact hs
  | sellInStore pid qty now =>
    intro e he
    apply hs e
    cases ha : is_product_active s pid with
    | false => simpa [applyOp, StoreManager.record_sale, ha] using he
    | true =>
      by_cases hqty : qty ≤ 0 <;>
        simpa [applyOp, StoreManager.record_sale, ha, hqty] using he
  | sellOnline pid qty now =>
    intro e he
    apply hs e
    cases hex : check_product_exists s pid with
    | false => simpa [applyOp, OnlineShopManager.record_sale, hex] using he
    | true =>
      cases ha : is_product_active s pid with
      | false => simpa [applyOp, OnlineShopManager.record_sale, hex, ha] using he
      | true =>
        by_cases hqty : qty ≤ 0 <;>
          simpa [applyOp, OnlineShopManager.record_sale, hex, ha, hqty] using he
  | replenishStock pid qty =>
    have hq : 0 < qty := hop
    intro e he
    cases hf : s.storage.find? (fun x => x.productID == pid) with
    | some r =>
      have hmem : e ∈ s.storage.map (fun x =>
          if x.productID == pid then { x with quantity := x.quantity + qty } else x) := by
        simpa [applyOp, StorageManager.add_product, hf] using he
      obtain ⟨x, hx, hxe⟩ := List.mem_map.mp hmem
      by_cases h : (x.productID == pid) = true
      · rw [← hxe, if_pos h]
        have := hs x hx
        simp only []
        omega
      · rw [← hxe, if_neg h]
        exact hs x hx
    | none =>
      cases hex : check_product_exists s pid with
      | true =>
        have hmem : e ∈ s.storage ++ [(⟨pid, qty⟩ : StorageRow)] := by
          simpa [applyOp, StorageManager.add_product, hf, hex] using he
        rcases List.mem_append.mp hmem with h | h
        · exact hs e h
        · have he' : e = ⟨pid, qty⟩ := by simpa using h
          rw [he']
          exact le_of_lt hq
      | false =>
        have hmem : e ∈ s.storage := by
          simpa [applyOp, StorageManager.add_product, hf, hex] using he
        exact hs e hmem

/-- Folding any trace of positive-replenishment operations preserves
non-negative stock. -/
theorem runFrom_storageNonneg (ops : List Op) (s : StoreState)
    (hs : storageNonneg s) (h : ∀ op ∈ ops, replenishPositive op) :
    storageNonneg (runFrom s ops) := by
  induction ops generalizing s with
  | nil => exact hs
  | cons op t ih =>
    exact ih (applyOp s op)
      (applyOp_storageNonneg s op hs (h op (List.mem_cons_self op t)))
      (fun o ho => h o (List.mem_cons_of_mem op ho))

/-- C2 counterexample: the claim quantifies over *every* quantity, but
`replenishStock` validates nothing, so the public operations reach a state
whose recorded stock quantity is negative. -/
theorem C2_negative_stock_reachable :
    (runOps [.addProduct "W" 1, .replenishStock 1 (-5)]).storage = [⟨1, -5⟩] ∧
    (-5 : Int) < 0 := by
  decide

/-- C2 (amended): in every state reachable through the public operations in
which each replenishment carries a positive quantity — the precondition the
front-end enforces — every stock quantity recorded in `Storage` is
non-negative. -/
theorem C2_storage_nonneg_of_positive_replenish (ops : List Op)
    (h : ∀ op ∈ ops, replenishPositive op) :
    storageNonneg (runOps ops) :=
  runFrom_storageNonneg ops initialState
    (fun e he => absurd he (List.not_mem_nil e)) h

/-- C2 witness: a concrete positive-replenishment trace keeps stock
non-negative. -/
theorem C2_storage_nonneg_witness :
    (∀ op ∈ [Op.addProduct "Widget" 999, Op.replenishStock 1 10],
       replenishPositive op) ∧
    storageNonneg (runOps [Op.addProduct "Widget" 999, Op.replenishStock 1 10]) :=
  ⟨by simp [replenishPositive],
   C2_storage_nonneg_of_positive_replenish
     [Op.addProduct "Widget" 999, Op.replenishStock 1 10]
     (by simp [replenishPositive])⟩

/-- C4 counterexample: `addProduct` with an empty name and a negative price
does not fail — it inserts the product (with `active = true`) and returns
the newly assigned ID 1, so no `ValidationError` exists on this path. -/
theorem C4_empty_name_negative_price_accepted :
    (StorageManager.add_new_product initialState "" (-1)).1 = 1 ∧
    (StorageManager.add_new_product initialState "" (-1)).2.products
      = [⟨1, "", -1, true⟩] := by
  decide

/-- C4 (amended): `addProduct` performs no validation at all: for *every*
name and price — empty name and negative price included — it inserts exactly
one product row with `active = true` and returns the newly assigned ID,
which immediately exists and is active (the hypothesis that existing IDs lie
below the counter holds in every reachable state and makes the fresh ID
unique). -/
theorem C4_addProduct_no_validation (s : StoreState) (name : String) (price : Int)
    (h : idsBelowNext s) :
    (StorageManager.add_new_product s name price).1 = s.nextProductID ∧
    check_product_exists (StorageManager.add_new_product s name price).2
        s.nextProductID = true ∧
    is_product_active (StorageManager.add_new_product s name price).2
        s.nextProductID = true ∧
    (StorageManager.add_new_product s name price).2.products.length
        = s.products.length + 1 := by
  have hnone : s.products.find? (fun p => p.productID == s.nextProductID) = none := by
    rw [List.find?_eq_none]
    intro p hp
    have hlt := h p hp
    simp only [beq_iff_eq]
    omega
  have hfind : ((s.products ++ [(⟨s.nextProductID, name, price, true⟩ : ProductRow)]).find?
      (fun p => p.productID == s.nextProductID))
      = some ⟨s.nextProductID, name, price, true⟩ := by
    rw [List.find?_append, hnone]
    simp [List.find?]
  refine ⟨rfl, ?_, ?_, ?_⟩
  · simp only [StorageManager.add_new_product, check_product_exists, hfind,
      Option.isSome_some]
  · simp only [StorageManager.add_new_product, is_product_active, hfind]
  · simp [StorageManager.add_new_product]

/-- C4 witness: concrete instance from the fresh store. -/
theorem C4_addProduct_no_validation_witness :
    idsBelowNext initialState ∧
    (StorageManager.add_new_product initialState "Widget" 999).1 = 1 ∧
    is_product_active (StorageManager.add_new_product initialState "Widget" 999).2
        1 = true :=
  ⟨fun p hp => absurd hp (List.not_mem_nil p),
   (C4_addProduct_no_validation initialState "Widget" 999
      (fun p hp => absurd hp (List.not_mem_nil p))).1,
   (C4_addProduct_no_validation initialState "Widget" 999
      (fun p hp => absurd hp (List.not_mem_nil p))).2.2.1⟩

/-- C7: the report has exactly one row per product ever created (every
catalog row, active or inactive, contributes its row and the row count is
the catalog's), is ordered by ProductID ascending, defaults missing stock
and missing per-channel sales to 0, and totals each row as the store-channel
sum plus the online-channel sum. -/
theorem C7_report_shape (s : StoreState) :
    (ReportManager.get_sales_report s).length = s.products.length ∧
    (ReportManager.get_sales_report s).Pairwise
      (fun a b => a.productID ≤ b.productID) ∧
    (∀ r ∈ ReportManager.get_sales_report s,
        r.totalSalesQuantity = r.storeSalesQuantity + r.onlineSalesQuantity ∧
        (s.storage.find? (fun e => e.productID == r.productID) = none →
          r.storageQuantity = 0) ∧
        (s.storeSales.filter (fun e => e.productID == r.productID) = [] →
          r.storeSalesQuantity = 0) ∧
        (s.onlineSales.filter (fun e => e.productID == r.productID) = [] →
          r.onlineSalesQuantity = 0)) ∧
    (∀ p ∈ s.products, reportRowFor s p ∈ ReportManager.get_sales_report s) := by
  refine ⟨?_, ?_, ?_, ?_⟩
  · simp [ReportManager.get_sales_report, List.length_insertionSort]
  · exact List.pairwise_map.mpr
      ((List.sorted_insertionSort rowLE s.products).imp (fun h => h))
  · intro r hr
    obtain ⟨p, hp, hpr⟩ := List.mem_map.mp hr
    refine ⟨by rw [← hpr]; rfl, ?_, ?_, ?_⟩
    · intro h0
      rw [← hpr] at h0 ⊢
      simp only [reportRowFor, stockFor] at h0 ⊢
      rw [h0]
    · intro h0
      rw [← hpr] at h0 ⊢
      simp only [reportRowFor, storeSalesSum] at h0 ⊢
      rw [h0]
      rfl
    · intro h0
      rw [← hpr] at h0 ⊢
      simp only [reportRowFor, onlineSalesSum] at h0 ⊢
      rw [h0]
      rfl
  · intro p hp
    exact List.mem_map_of_mem (reportRowFor s)
      ((List.mem_insertionSort rowLE).mpr hp)

/-- C7 witness: concrete instance — the two-product sample state yields a
two-row report containing the never-sold product's row. -/
theorem C7_report_shape_witness :
    (ReportManager.get_sales_report sampleFull).length
        = sampleFull.products.length ∧
    reportRowFor sampleFull ⟨2, "Gadget", 5, true⟩
        ∈ ReportManager.get_sales_report sampleFull :=
  ⟨(C7_report_shape sampleFull).1,
   (C7_report_shape sampleFull).2.2.2 ⟨2, "Gadget", 5, true⟩ (by decide)⟩
